import Mathlib

/-!
Shallow embedding of `src/python/bark_sdk.py` (Bark notification SDK).

The Python module defines a client class `BarkNotification` with methods
`send` (GET-style, path-encoded), `send_post` (POST with JSON body),
`_build_endpoint`, and `_handle_response`, plus an exception hierarchy
`BarkException` / `BarkNetworkException` / `BarkServerException` /
`BarkClientException`.

Modelling choices:
- Exceptions become an `Except BarkError _` result; the three raised
  exception classes become the three constructors of `BarkError`.
- Python `Optional` values become `Option`; Python truthiness of an
  optional string (`if title:`) is `truthy` below (None and "" are falsy).
- The HTTP layer (`requests`) is an oracle passed to the method: a
  function from the constructed request to a transport outcome.  A
  response carries its status code, raw text, and the result of JSON
  parsing (`none` models `json.JSONDecodeError` from `response.json()`).
- `urllib.parse.quote` is embedded byte-for-byte: UTF-8 encode, keep
  ASCII letters, digits, `_.-~` (the always-safe set) and the default
  `safe='/'` characters, percent-encode every other byte with uppercase
  hex digits.
- Query parameters / JSON dicts become insertion-ordered association
  lists; `dictSet` mirrors Python dict assignment (update in place or
  append).
-/

/-- Python values that can appear as a `**kwargs` argument or JSON field:
enough of Python's value universe for this SDK (None, str, bool, int). -/
inductive PyVal where
  | vnone : PyVal
  | vstr : String → PyVal
  | vbool : Bool → PyVal
  | vint : Int → PyVal
deriving DecidableEq, Repr

/-- Python `str()` / f-string rendering of a `PyVal`, as used by
`f"API error: {json_response.get('message', 'Unknown error')}"`. -/
def pyStr : PyVal → String
  | .vnone => "None"
  | .vstr s => s
  | .vbool true => "True"
  | .vbool false => "False"
  | .vint n => toString n

/-- A parsed JSON object (the Bark server's response shape), as returned by
`response.json()`: an insertion-ordered mapping from string keys to values. -/
def JsonObj : Type := List (String × PyVal)

instance : DecidableEq JsonObj := by
  unfold JsonObj
  infer_instance

/-- Python `dict.get(k)`: the value at the first matching key, else `none`. -/
def jget (j : JsonObj) (k : String) : Option PyVal :=
  match j with
  | [] => none
  | (k', v) :: rest => if k' == k then some v else jget rest k

/-- Python `dict.get('message', 'Unknown error')` rendered through the
f-string: the stored value stringified, or the fallback when absent. -/
def messageOf (j : JsonObj) : String :=
  match jget j "message" with
  | some v => pyStr v
  | none => "Unknown error"

/-- The exception hierarchy of the SDK: `BarkClientException` (validation),
`BarkNetworkException` (transport), `BarkServerException` (carrying the
message, the optional HTTP status code, and the optional parsed body). -/
inductive BarkError where
  | clientError : String → BarkError
  | networkError : String → BarkError
  | serverError : String → Option Nat → Option JsonObj → BarkError
deriving DecidableEq

/-- Uppercase hexadecimal digit for a value below 16, as produced by
`urllib.parse.quote`. -/
def hexDigit (n : Nat) : Char :=
  if n < 10 then Char.ofNat (48 + n) else Char.ofNat (55 + n)

/-- Percent-escape of one byte: `%` followed by two uppercase hex digits. -/
def percentByte (b : Nat) : String :=
  String.mk [Char.ofNat 37, hexDigit (b / 16), hexDigit (b % 16)]

/-- The bytes `urllib.parse.quote` never escapes: ASCII letters, digits,
and `_` `.` `-` `~`. -/
def isAlwaysSafe (b : Nat) : Bool :=
  (65 ≤ b && b ≤ 90) || (97 ≤ b && b ≤ 122) || (48 ≤ b && b ≤ 57) ||
  b == 95 || b == 46 || b == 45 || b == 126

/-- UTF-8 byte sequence of a string, as numbers. -/
def utf8Bytes (s : String) : List Nat :=
  (s.data.flatMap String.utf8EncodeChar).map (fun b => b.toNat)

/-- `urllib.parse.quote(s)` with its default `safe='/'`: each UTF-8 byte is
kept when always-safe or equal to `/` (byte 47), otherwise percent-encoded. -/
def quote (s : String) : String :=
  String.join ((utf8Bytes s).map (fun b =>
    if isAlwaysSafe b || b == 47 then String.mk [Char.ofNat b] else percentByte b))

/-- Python truthiness of an `Optional[str]`: `None` and `""` are falsy. -/
def truthy : Option String → Bool
  | none => false
  | some s => !s.isEmpty

/-- The class attribute `BarkNotification.DEFAULT_SERVER`. -/
def DEFAULT_SERVER : String := "https://api.day.app"

/-- The state of a constructed `BarkNotification` client: the three
attributes set by `__init__`. -/
structure BarkNotification where
  key : String
  server_url : String
  base_url : String
deriving DecidableEq

/-- Python `server_url or self.DEFAULT_SERVER`: the argument when truthy,
else the default. -/
def serverResolve (server_url : Option String) : String :=
  match server_url with
  | some s => if s.isEmpty then DEFAULT_SERVER else s
  | none => DEFAULT_SERVER

/-- `BarkNotification.__init__(key, server_url)`: raises
`BarkClientException` when `key` is falsy, otherwise stores `key`,
`server_url or DEFAULT_SERVER`, and `base_url = f"{server_url}/{key}"`.
An absent `server_url` argument is `none`. -/
def mkBarkNotification (key : String) (server_url : Option String) :
    Except BarkError BarkNotification :=
  if key.isEmpty then
    .error (.clientError "Bark key cannot be empty")
  else
    .ok { key := key, server_url := serverResolve server_url,
          base_url := serverResolve server_url ++ "/" ++ key }

/-- `BarkNotification._build_endpoint(body, title, subtitle)`: the path with
quoted segments, branching on Python truthiness of `title` and `subtitle`. -/
def build_endpoint (c : BarkNotification) (body : String)
    (title subtitle : Option String) : String :=
  if truthy title && truthy subtitle then
    c.base_url ++ "/" ++ quote (title.getD "") ++ "/" ++ quote (subtitle.getD "")
      ++ "/" ++ quote body
  else if truthy title then
    c.base_url ++ "/" ++ quote (title.getD "") ++ "/" ++ quote body
  else
    c.base_url ++ "/" ++ quote body

/-- A query-parameter value in the `send` path: Python puts either a string
or the integer `1`/`0` into the `params` dict. -/
inductive PVal where
  | pint : Int → PVal
  | pstr : String → PVal
deriving DecidableEq, Repr

/-- The arguments of `BarkNotification.send`, each optional one defaulting
to `None` as in the Python signature. -/
structure SendArgs where
  body : String
  title : Option String := none
  subtitle : Option String := none
  url : Option String := none
  group : Option String := none
  icon : Option String := none
  sound : Option String := none
  call : Option Bool := none
  level : Option String := none
  is_archive : Option Bool := none
  copy : Option String := none
  ciphertext : Option String := none
deriving DecidableEq

/-- Python truthiness of an `Optional[bool]`: only `Some true` is truthy. -/
def truthyB : Option Bool → Bool
  | some b => b
  | none => false

/-- The `params` dict built inside `send`, in insertion order.  Each block
mirrors one `if` statement of the source; `call` is guarded by its own
truthiness (`if call:`) while `is_archive` is guarded by `is not None`. -/
def send_params (a : SendArgs) : List (String × PVal) :=
  (if truthy a.url then [("url", PVal.pstr (a.url.getD ""))] else []) ++
  (if truthy a.group then [("group", PVal.pstr (a.group.getD ""))] else []) ++
  (if truthy a.icon then [("icon", PVal.pstr (a.icon.getD ""))] else []) ++
  (if truthy a.sound then [("sound", PVal.pstr (a.sound.getD ""))] else []) ++
  (if truthyB a.call then [("call", PVal.pint (if truthyB a.call then 1 else 0))] else []) ++
  (if truthy a.level then [("level", PVal.pstr (a.level.getD ""))] else []) ++
  (if a.is_archive.isSome then
    [("isArchive", PVal.pint (if truthyB a.is_archive then 1 else 0))] else []) ++
  (if truthy a.copy then [("copy", PVal.pstr (a.copy.getD ""))] else []) ++
  (if truthy a.ciphertext then [("ciphertext", PVal.pstr (a.ciphertext.getD ""))] else [])

/-- The GET request `send` hands to `requests.get`: the endpoint URL and
the query-parameter dict (the fixed `timeout=10` is common to every call). -/
structure GetRequest where
  endpoint : String
  params : List (String × PVal)
deriving DecidableEq

/-- The allowed `level` values of the SDK. -/
def validLevels : List String := ["active", "timeSensitive", "passive", "critical"]

/-- The validation and request-construction part of `send`: the two
`BarkClientException` guards (empty body; truthy level outside
`validLevels`) followed by `_build_endpoint` and the `params` dict. -/
def send_request (c : BarkNotification) (a : SendArgs) :
    Except BarkError GetRequest :=
  if a.body.isEmpty then
    .error (.clientError "Notification body cannot be empty")
  else if truthy a.level && !(validLevels.contains (a.level.getD "")) then
    .error (.clientError
      "Invalid level value. Must be one of: active, timeSensitive, passive, critical")
  else
    .ok { endpoint := build_endpoint c a.body a.title a.subtitle,
          params := send_params a }

/-- An HTTP response as seen through `requests`: status code, raw text, and
the outcome of `response.json()` (`none` when parsing raises
`json.JSONDecodeError`). -/
structure HttpResponse where
  status_code : Nat
  text : String
  jsonBody : Option JsonObj
deriving DecidableEq

/-- The outcome of one transport attempt: either `requests.RequestException`
with its message, or a response. -/
inductive NetOutcome where
  | failure : String → NetOutcome
  | response : HttpResponse → NetOutcome

/-- `BarkNotification._handle_response(response)`: non-200 status raises
`BarkServerException` with the raw text; a JSON parse failure raises
`BarkServerException` with the raw text; a parsed body whose `code` field
is not the integer 200 raises `BarkServerException` with the `message`
field (or a fallback) and the parsed body attached; otherwise the parsed
body is returned. -/
def handle_response (r : HttpResponse) : Except BarkError JsonObj :=
  if r.status_code ≠ 200 then
    .error (.serverError ("Server returned error: " ++ r.text)
      (some r.status_code) none)
  else
    match r.jsonBody with
    | none =>
      .error (.serverError ("Invalid JSON response: " ++ r.text)
        (some r.status_code) none)
    | some j =>
      if jget j "code" ≠ some (PyVal.vint 200) then
        .error (.serverError ("API error: " ++ messageOf j)
          (some r.status_code) (some j))
      else
        .ok j

/-- The part of `send`/`send_post` after the request is built: the inner
`try`/`except requests.RequestException` wrapping the network call, then
`_handle_response`.  The client is threaded through unchanged because the
method bodies never assign to `self`. -/
def netStep (c : BarkNotification) (out : NetOutcome) :
    Except BarkError JsonObj × BarkNotification :=
  match out with
  | .failure m => (.error (.networkError ("Network error: " ++ m)), c)
  | .response r => (handle_response r, c)

/-- `BarkNotification.send`, in state-passing form: validation, request
construction, the network call through the oracle `net`, then
`_handle_response`.  The second component is the client after the call;
the method body never assigns to `self`, so it is the incoming client in
every branch. -/
def send_st (c : BarkNotification) (a : SendArgs)
    (net : GetRequest → NetOutcome) :
    Except BarkError JsonObj × BarkNotification :=
  match send_request c a with
  | .error e => (.error e, c)
  | .ok req => netStep c (net req)

/-- The result of `BarkNotification.send`. -/
def send (c : BarkNotification) (a : SendArgs)
    (net : GetRequest → NetOutcome) : Except BarkError JsonObj :=
  (send_st c a net).1

/-- Python dict assignment `d[k] = v` on an insertion-ordered association
list: update the existing key in place, or append a new entry. -/
def dictSet (d : List (String × PyVal)) (k : String) (v : PyVal) :
    List (String × PyVal) :=
  if d.any (fun p => p.1 == k) then
    d.map (fun p => if p.1 == k then (k, v) else p)
  else
    d ++ [(k, v)]

/-- Membership test `kwargs['level']`-style lookup: Python `k in kwargs`
with the stored value. -/
def kwLookup (kwargs : List (String × PyVal)) (k : String) : Option PyVal :=
  match kwargs with
  | [] => none
  | (k', v) :: rest => if k' == k then some v else kwLookup rest k

/-- Python `value not in ["active", "timeSensitive", "passive", "critical"]`
negated: a kwargs value passes only when it equals one of the four strings
(so `None`, `""`, numbers and booleans all fail the membership test). -/
def pyValidLevel (v : PyVal) : Bool :=
  v == PyVal.vstr "active" || v == PyVal.vstr "timeSensitive" ||
  v == PyVal.vstr "passive" || v == PyVal.vstr "critical"

/-- The POST request `send_post` hands to `requests.post`: the base URL and
the JSON payload dict. -/
structure PostRequest where
  endpoint : String
  data : List (String × PyVal)
deriving DecidableEq

/-- The `data` dict built inside `send_post`: `"body"` always, `"title"`
and `"subtitle"` when truthy, then every kwargs entry assigned in order
(Python dict assignment, so a kwargs key can overwrite an earlier one). -/
def send_post_data (body : String) (title subtitle : Option String)
    (kwargs : List (String × PyVal)) : List (String × PyVal) :=
  kwargs.foldl (fun d p => dictSet d p.1 p.2)
    ([("body", PyVal.vstr body)]
      ++ (if truthy title then [("title", PyVal.vstr (title.getD ""))] else [])
      ++ (if truthy subtitle then [("subtitle", PyVal.vstr (subtitle.getD ""))] else []))

/-- The validation part of `send_post` followed by the payload: the empty
body guard, then the level guard (`'level' in kwargs and kwargs['level']
not in [...]`), then the request aimed at `self.base_url`. -/
def send_post_request (c : BarkNotification) (body : String)
    (title subtitle : Option String)
    (kwargs : List (String × PyVal)) : Except BarkError PostRequest :=
  if body.isEmpty then
    .error (.clientError "Notification body cannot be empty")
  else if (kwLookup kwargs "level").isSome
      && !(pyValidLevel ((kwLookup kwargs "level").getD PyVal.vnone)) then
    .error (.clientError
      "Invalid level value. Must be one of: active, timeSensitive, passive, critical")
  else
    .ok { endpoint := c.base_url,
          data := send_post_data body title subtitle kwargs }

/-- `BarkNotification.send_post`, in state-passing form, mirroring
`send_st`. -/
def send_post_st (c : BarkNotification) (body : String)
    (title subtitle : Option String) (kwargs : List (String × PyVal))
    (net : PostRequest → NetOutcome) :
    Except BarkError JsonObj × BarkNotification :=
  match send_post_request c body title subtitle kwargs with
  | .error e => (.error e, c)
  | .ok req => netStep c (net req)

/-- The result of `BarkNotification.send_post`. -/
def send_post (c : BarkNotification) (body : String)
    (title subtitle : Option String) (kwargs : List (String × PyVal))
    (net : PostRequest → NetOutcome) : Except BarkError JsonObj :=
  (send_post_st c body title subtitle kwargs net).1

/-- Whether a result is a raised `BarkClientException` (ValidationError). -/
def isClientError {α : Type} : Except BarkError α → Bool
  | .error (.clientError _) => true
  | _ => false

/-- Whether a result is a success. -/
def isOkResult {α : Type} : Except BarkError α → Bool
  | .ok _ => true
  | _ => false

/-- Lookup in the `params` dict of `send` (first matching key). -/
def plookup (l : List (String × PVal)) (k : String) : Option PVal :=
  match l with
  | [] => none
  | (k', v) :: rest => if k' == k then some v else plookup rest k

/-- A concrete client, as produced by `BarkNotification(key="KEY")`. -/
def exClient : BarkNotification :=
  { key := "KEY", server_url := "https://api.day.app",
    base_url := "https://api.day.app/KEY" }

/-- A concrete successful server response. -/
def okResponse : HttpResponse :=
  { status_code := 200, text := "ok",
    jsonBody := some [("code", PyVal.vint 200), ("message", PyVal.vstr "success")] }

/-- A GET-side network oracle that always answers with `okResponse`. -/
def netG : GetRequest → NetOutcome := fun _ => NetOutcome.response okResponse

/-- A POST-side network oracle that always answers with `okResponse`. -/
def netP : PostRequest → NetOutcome := fun _ => NetOutcome.response okResponse

lemma plookup_append (l1 l2 : List (String × PVal)) (k : String) :
    plookup (l1 ++ l2) k =
      match plookup l1 k with
      | some v => some v
      | none => plookup l2 k := by
  induction l1 with
  | nil => simp [plookup]
  | cons p rest ih =>
    obtain ⟨k', v⟩ := p
    show plookup ((k', v) :: (rest ++ l2)) k = _
    by_cases h : (k' == k) = true
    · simp [plookup, h]
    · simp [plookup, h, ih]

lemma isClientError_handle_response (r : HttpResponse) :
    isClientError (handle_response r) = false := by
  unfold handle_response
  split
  · rfl
  · split
    · rfl
    · split
      · rfl
      · rfl

lemma isClientError_send_request (c : BarkNotification) (a : SendArgs) :
    isClientError (send_request c a) =
      (a.body.isEmpty || (truthy a.level && !(validLevels.contains (a.level.getD "")))) := by
  unfold send_request
  cases hb : a.body.isEmpty with
  | true => simp [hb, isClientError]
  | false =>
    cases hl : (truthy a.level && !(validLevels.contains (a.level.getD ""))) with
    | true => simp [hb, hl, isClientError]
    | false => simp [hb, hl, isClientError]

lemma isClientError_netStep (c : BarkNotification) (out : NetOutcome) :
    isClientError (netStep c out).1 = false := by
  cases out with
  | failure m => rfl
  | response r => exact isClientError_handle_response r

lemma isClientError_send (c : BarkNotification) (a : SendArgs)
    (net : GetRequest → NetOutcome) :
    isClientError (send c a net) = isClientError (send_request c a) := by
  unfold send send_st
  cases h : send_request c a with
  | error e => cases e <;> rfl
  | ok req =>
    rw [isClientError_netStep]
    rfl

lemma isClientError_send_post_request (c : BarkNotification) (body : String)
    (t s : Option String) (kw : List (String × PyVal)) :
    isClientError (send_post_request c body t s kw) =
      (body.isEmpty || ((kwLookup kw "level").isSome
        && !(pyValidLevel ((kwLookup kw "level").getD PyVal.vnone)))) := by
  unfold send_post_request
  cases hb : body.isEmpty with
  | true => simp [hb, isClientError]
  | false =>
    cases hl : ((kwLookup kw "level").isSome
        && !(pyValidLevel ((kwLookup kw "level").getD PyVal.vnone))) with
    | true => simp [hb, hl, isClientError]
    | false => simp [hb, hl, isClientError]

lemma isClientError_send_post (c : BarkNotification) (body : String)
    (t s : Option String) (kw : List (String × PyVal))
    (net : PostRequest → NetOutcome) :
    isClientError (send_post c body t s kw net) =
      isClientError (send_post_request c body t s kw) := by
  unfold send_post send_post_st
  cases h : send_post_request c body t s kw with
  | error e => cases e <;> rfl
  | ok req =>
    rw [isClientError_netStep]
    rfl

lemma plookup_cond_other (cond : Bool) (k k' : String) (v : PVal)
    (h : (k' == k) = false) :
    plookup (if cond then [(k', v)] else []) k = none := by
  cases cond <;> simp [plookup, h]

lemma plookup_cond_same (cond : Bool) (k : String) (v : PVal) :
    plookup (if cond then [(k, v)] else []) k =
      if cond then some v else none := by
  cases cond <;> simp [plookup]

/-- C1: the claim says `send`'s percent-encoding escapes every reserved URL
character including `/`, with `"A B" → "A%20B"` and `"C/D" → "C%2FD"`.
The embedded `urllib.parse.quote` (whose default is `safe='/'`) does escape
the space but leaves the slash intact, so the subtitle `"C/D"` becomes the
raw segment `"C/D"` and the constructed endpoint gains an extra path
separator. -/
theorem c1_slash_left_unencoded :
    quote "A B" = "A%20B" ∧
    quote "C/D" = "C/D" ∧
    ¬ quote "C/D" = "C%2FD" ∧
    build_endpoint exClient "E" (some "A B") (some "C/D") =
      "https://api.day.app/KEY/A%20B/C/D/E" := by
  refine ⟨?_, ?_, ?_, ?_⟩ <;> decide

/-- C2 counterexample: with `call=False` and `is_archive=False` in the same
request, `send` omits the `call` parameter but emits `isArchive=0`, so the
two booleans are not serialized consistently (neither both omitted nor
both sent as `0`). -/
theorem c2_counterexample :
    plookup (send_params
      { body := "E", call := some false, is_archive := some false }) "call" = none ∧
    plookup (send_params
      { body := "E", call := some false, is_archive := some false }) "isArchive" =
      some (PVal.pint 0) := by
  refine ⟨?_, ?_⟩ <;> decide

/-- C2 amended: `call=True` yields query parameter `call=1`, but `call`
and `is_archive` are guarded differently: a falsy `call` (`False` or
`None`) is omitted entirely, while `is_archive` is included whenever it is
not `None`, serialized as `1`/`0`. -/
theorem c2_boolean_params (a : SendArgs) :
    plookup (send_params a) "call" =
      (if truthyB a.call then some (PVal.pint 1) else none) ∧
    plookup (send_params a) "isArchive" =
      (match a.is_archive with
       | some b => some (PVal.pint (if b then 1 else 0))
       | none => none) := by
  constructor
  · unfold send_params
    simp only [plookup_append, plookup_cond_other, plookup_cond_same]
    cases hc : truthyB a.call <;> simp [plookup_cond_other]
  · unfold send_params
    simp only [plookup_append, plookup_cond_other, plookup_cond_same]
    cases ha : a.is_archive with
    | none => simp [plookup_cond_other]
    | some b => simp [truthyB, plookup_cond_other]

/-- C3 counterexample: with `level` equal to the empty string, `send` passes
validation (its guard tests Python truthiness first) while `send_post`
raises `BarkClientException`, so the two methods do not accept/reject the
same body/level combinations. -/
theorem c3_counterexample :
    isClientError (send exClient { body := "E", level := some "" } netG) = false ∧
    isClientError (send_post exClient "E" none none
      [("level", PyVal.vstr "")] netP) = true := by
  refine ⟨?_, ?_⟩ <;> decide

/-- C3 amended: `send` raises `BarkClientException` exactly when the body
is empty or `level` is truthy (neither `None` nor `""`) and outside the
four allowed values, while `send_post` raises exactly when the body is
empty or a `level` key is present in kwargs with a value that is not one
of the four allowed strings; hence the methods agree except when `level`
is explicitly `None` or `""`, which `send` accepts and `send_post`
rejects. -/
theorem c3_validation_characterization (c : BarkNotification) (a : SendArgs)
    (netg : GetRequest → NetOutcome) (body : String) (t s : Option String)
    (kw : List (String × PyVal)) (netp : PostRequest → NetOutcome) :
    isClientError (send c a netg) =
      (a.body.isEmpty || (truthy a.level && !(validLevels.contains (a.level.getD "")))) ∧
    isClientError (send_post c body t s kw netp) =
      (body.isEmpty || ((kwLookup kw "level").isSome
        && !(pyValidLevel ((kwLookup kw "level").getD PyVal.vnone)))) :=
  ⟨(isClientError_send c a netg).trans (isClientError_send_request c a),
   (isClientError_send_post c body t s kw netp).trans
     (isClientError_send_post_request c body t s kw)⟩

/-- C4: for every request that passes validation, `send` builds the path by
appending percent-quoted segments to the base address: title and subtitle
segments when both are truthy, only the title segment when just the title
is truthy, and only the body segment otherwise. -/
theorem c4_send_path (c : BarkNotification) (a : SendArgs) (r : GetRequest)
    (h : send_request c a = .ok r) :
    (truthy a.title = true → truthy a.subtitle = true →
      r.endpoint = c.base_url ++ "/" ++ quote (a.title.getD "") ++ "/" ++
        quote (a.subtitle.getD "") ++ "/" ++ quote a.body) ∧
    (truthy a.title = true → truthy a.subtitle = false →
      r.endpoint = c.base_url ++ "/" ++ quote (a.title.getD "") ++ "/" ++
        quote a.body) ∧
    (truthy a.title = false →
      r.endpoint = c.base_url ++ "/" ++ quote a.body) := by
  have he : r.endpoint = build_endpoint c a.body a.title a.subtitle := by
    unfold send_request at h
    split_ifs at h
    all_goals injection h with h3
    all_goals rw [← h3]
  refine ⟨?_, ?_, ?_⟩
  · intro ht hs
    rw [he]
    unfold build_endpoint
    simp [ht, hs]
  · intro ht hs
    rw [he]
    unfold build_endpoint
    simp [ht, hs]
  · intro ht
    rw [he]
    unfold build_endpoint
    simp [ht]

/-- The request produced by `send` on `body="E"` with no optional fields. -/
def c4req : GetRequest :=
  { endpoint := "https://api.day.app/KEY/E", params := [] }

/-- Witness for C4 at `body="E"`, no title: the endpoint is the base address
followed by the quoted body. -/
theorem c4_send_path_witness :
    c4req.endpoint = exClient.base_url ++ "/" ++ quote "E" :=
  (c4_send_path exClient { body := "E" } c4req (by rfl)).2.2 (by rfl)

/-- C5: a non-200 HTTP status always raises `BarkServerException` carrying
that status and the raw text, a 200 response whose body fails JSON parsing
raises `BarkServerException` carrying the status and raw text, and in both
situations no success result is ever returned. -/
theorem c5_http_and_parse_failures (r : HttpResponse) :
    (r.status_code ≠ 200 →
      handle_response r = .error (.serverError
        ("Server returned error: " ++ r.text) (some r.status_code) none)) ∧
    (r.status_code = 200 → r.jsonBody = none →
      handle_response r = .error (.serverError
        ("Invalid JSON response: " ++ r.text) (some r.status_code) none)) ∧
    (∀ j : JsonObj, r.status_code ≠ 200 ∨ r.jsonBody = none →
      handle_response r ≠ .ok j) := by
  have h1 : r.status_code ≠ 200 →
      handle_response r = .error (.serverError
        ("Server returned error: " ++ r.text) (some r.status_code) none) := by
    intro hs
    unfold handle_response
    simp [hs]
  have h2 : r.status_code = 200 → r.jsonBody = none →
      handle_response r = .error (.serverError
        ("Invalid JSON response: " ++ r.text) (some r.status_code) none) := by
    intro hs hj
    unfold handle_response
    simp [hs, hj]
  refine ⟨h1, h2, ?_⟩
  intro j hor
  rcases hor with hs | hj
  · rw [h1 hs]
    simp
  · by_cases hs : r.status_code = 200
    · rw [h2 hs hj]
      simp
    · rw [h1 hs]
      simp

/-- Witness for C5: HTTP 500 yields the status-carrying server error, and
HTTP 200 with an unparseable body yields the parse-failure server error. -/
theorem c5_witness :
    handle_response { status_code := 500, text := "oops", jsonBody := none } =
      .error (.serverError ("Server returned error: " ++ "oops") (some 500) none) ∧
    handle_response { status_code := 200, text := "garbage", jsonBody := none } =
      .error (.serverError ("Invalid JSON response: " ++ "garbage") (some 200) none) :=
  ⟨(c5_http_and_parse_failures
      { status_code := 500, text := "oops", jsonBody := none }).1 (by decide),
   (c5_http_and_parse_failures
      { status_code := 200, text := "garbage", jsonBody := none }).2.1 rfl rfl⟩

/-- C6: for a 200 response whose body parses as JSON, a `code` field other
than the integer 200 raises `BarkServerException` carrying the HTTP
status, a message from the `message` field (or the fallback
"Unknown error"), and the parsed body; a `code` field equal to 200 returns
the parsed body unchanged. -/
theorem c6_api_code_check (r : HttpResponse) (j : JsonObj)
    (hs : r.status_code = 200) (hj : r.jsonBody = some j) :
    (jget j "code" ≠ some (PyVal.vint 200) →
      handle_response r = .error (.serverError ("API error: " ++ messageOf j)
        (some r.status_code) (some j))) ∧
    (jget j "code" = some (PyVal.vint 200) → handle_response r = .ok j) := by
  constructor
  · intro hc
    unfold handle_response
    simp [hs, hj, hc]
  · intro hc
    unfold handle_response
    simp [hs, hj, hc]

/-- A concrete 200 response whose parsed body signals an API failure. -/
def c6resp : HttpResponse :=
  { status_code := 200, text := "x",
    jsonBody := some [("code", PyVal.vint 400), ("message", PyVal.vstr "bad key")] }

/-- Witness for C6: with `code` 400 and `message` "bad key" the handler
raises the server error carrying that message and the parsed body. -/
theorem c6_witness :
    handle_response c6resp =
      .error (.serverError ("API error: " ++ messageOf
          [("code", PyVal.vint 400), ("message", PyVal.vstr "bad key")])
        (some 200)
        (some [("code", PyVal.vint 400), ("message", PyVal.vstr "bad key")])) :=
  (c6_api_code_check c6resp
    [("code", PyVal.vint 400), ("message", PyVal.vstr "bad key")] rfl rfl).1
    (by decide)

/-- C7: constructing a client with an empty key raises
`BarkClientException`; with a non-empty key construction succeeds and the
stored base address is the resolved server base URL joined to the key (the
fields are never reassigned afterwards, see the invariance theorem for
C9). -/
theorem c7_construction (key : String) (su : Option String) :
    (key = "" → mkBarkNotification key su =
      .error (.clientError "Bark key cannot be empty")) ∧
    (key ≠ "" → mkBarkNotification key su =
      .ok { key := key, server_url := serverResolve su,
            base_url := serverResolve su ++ "/" ++ key }) := by
  constructor
  · intro hk
    subst hk
    rfl
  · intro hk
    have hke : key.isEmpty = false := by
      cases hkb : key.isEmpty with
      | false => rfl
      | true => exact absurd ((String.isEmpty_iff key).mp hkb) hk
    unfold mkBarkNotification
    simp [hke]

/-- Witness for C7: key "KEY" with no server URL yields the client whose
base address is the default server joined to the key. -/
theorem c7_witness : mkBarkNotification "KEY" none = .ok exClient :=
  (c7_construction "KEY" none).2 (by decide)

/-- C8: calling `send` with an empty body raises `BarkClientException`
whatever the other fields are, and the outcome is the same for every
network oracle — no network activity can influence it, because the guard
fires before the request is ever issued. -/
theorem c8_empty_body (c : BarkNotification) (a : SendArgs)
    (net : GetRequest → NetOutcome) (h : a.body = "") :
    send c a net = .error (.clientError "Notification body cannot be empty") ∧
    (∀ net2 : GetRequest → NetOutcome, send c a net = send c a net2) := by
  have hmain : ∀ n : GetRequest → NetOutcome,
      send c a n = .error (.clientError "Notification body cannot be empty") := by
    intro n
    unfold send send_st send_request
    rw [h]
    rfl
  exact ⟨hmain net, fun net2 => (hmain net).trans (hmain net2).symm⟩

/-- Witness for C8: an empty body with every other field absent raises the
validation error under the always-succeeding oracle. -/
theorem c8_witness :
    send exClient { body := "" } netG =
      .error (.clientError "Notification body cannot be empty") :=
  (c8_empty_body exClient { body := "" } netG rfl).1

lemma netStep_client (c : BarkNotification) (out : NetOutcome) :
    (netStep c out).2 = c := by
  cases out <;> rfl

lemma send_st_client (c : BarkNotification) (a : SendArgs)
    (net : GetRequest → NetOutcome) : (send_st c a net).2 = c := by
  unfold send_st
  cases send_request c a with
  | error e => rfl
  | ok req => exact netStep_client c (net req)

lemma send_post_st_client (c : BarkNotification) (body : String)
    (t s : Option String) (kw : List (String × PyVal))
    (net : PostRequest → NetOutcome) :
    (send_post_st c body t s kw net).2 = c := by
  unfold send_post_st
  cases send_post_request c body t s kw with
  | error e => rfl
  | ok req => exact netStep_client c (net req)

/-- C9: neither `send` nor `send_post` mutates the client — in the
state-passing embedding the client coming out of either method equals the
client going in, on every argument and every network outcome — so a
repeated call starting from the post-call client behaves exactly like the
first call. -/
theorem c9_immutability (c : BarkNotification) (a : SendArgs)
    (netg : GetRequest → NetOutcome) (body : String) (t s : Option String)
    (kw : List (String × PyVal)) (netp : PostRequest → NetOutcome) :
    (send_st c a netg).2 = c ∧
    (send_post_st c body t s kw netp).2 = c ∧
    send (send_st c a netg).2 a netg = send c a netg ∧
    send_post (send_post_st c body t s kw netp).2 body t s kw netp =
      send_post c body t s kw netp := by
  refine ⟨send_st_client c a netg, send_post_st_client c body t s kw netp, ?_, ?_⟩
  · rw [send_st_client]
  · rw [send_post_st_client]

/-- C10: when the title is absent or empty, the subtitle is silently
dropped from the GET request: the endpoint is the base address with only
the quoted body whatever subtitle is supplied, and `subtitle` never occurs
among the query parameters. -/
theorem c10_subtitle_discarded (c : BarkNotification) (a : SendArgs)
    (h : truthy a.title = false) :
    (∀ s2 : Option String, build_endpoint c a.body a.title s2 =
      c.base_url ++ "/" ++ quote a.body) ∧
    plookup (send_params a) "subtitle" = none := by
  constructor
  · intro s2
    unfold build_endpoint
    simp [h]
  · unfold send_params
    simp [plookup_append, plookup_cond_other]

/-- Witness for C10: with no title and subtitle "S", the endpoint carries
only the quoted body and the parameters contain no subtitle. -/
theorem c10_witness :
    build_endpoint exClient "E" none (some "S") =
      exClient.base_url ++ "/" ++ quote "E" ∧
    plookup (send_params { body := "E", subtitle := some "S" }) "subtitle" = none :=
  ⟨(c10_subtitle_discarded exClient { body := "E", subtitle := some "S" } rfl).1
      (some "S"),
   (c10_subtitle_discarded exClient { body := "E", subtitle := some "S" } rfl).2⟩
